import Mathlib

set_option autoImplicit false

deriving instance DecidableEq for Except

namespace MoltyCash

/-!
Shallow embedding of the moltycash CLI (send.ts, cli.ts, gig.ts).

Numbers are modelled as rationals: the CLI normalizes every amount to a
JavaScript floating-point dollar value, and all values the claims touch
are exactly representable, so the rational model is faithful for them.
The JavaScript primitives the source leans on (String.prototype.trim,
parseFloat, parseInt, toLowerCase, the two literal regexes) are embedded
below over lists of characters.  parseFloat is modelled on finite decimal
literals with optional sign, fraction and exponent; the "Infinity"
literal has no rational counterpart and is out of scope of the model.
-/

/-- Characters stripped by the embedded JavaScript trim and skipped by
parseFloat before the number starts. -/
def jsWs (c : Char) : Bool :=
  c = ' ' || c = '\t' || c = '\n' || c = '\r' ||
  c = '\x0b' || c = '\x0c' || c = ' '

/-- JavaScript String.prototype.trim: whitespace removed from both ends. -/
def jsTrim (l : List Char) : List Char :=
  ((l.dropWhile jsWs).reverse.dropWhile jsWs).reverse

/-- Numeric value of one ASCII digit character. -/
def digitVal (c : Char) : ℕ := c.toNat - 48

/-- Value of a string of ASCII digits read in base 10 (also the model of
JavaScript parseInt(s, 10) on an all-digit string). -/
def digitsVal (l : List Char) : ℕ := l.foldl (fun a c => 10 * a + digitVal c) 0

/-- Optional leading sign of a JavaScript number literal; returns
(isNegative, rest). -/
def parseSign (l : List Char) : Bool × List Char :=
  match l with
  | [] => (false, [])
  | c :: r =>
    if c = '-' then (true, r)
    else if c = '+' then (false, r)
    else (false, c :: r)

/-- Symbolic form of a parsed JavaScript number literal: sign, mantissa
digits read as one integer, number of digits after the point, and the
optional exponent.  Kept in naturals so that concrete parses evaluate
inside the kernel; DecNum.toRat gives the numeric value. -/
structure DecNum where
  neg : Bool
  mant : ℕ
  fracLen : ℕ
  expNeg : Bool
  exp : ℕ
deriving DecidableEq

/-- Numeric value of a parsed literal. -/
def DecNum.toRat (d : DecNum) : ℚ :=
  let mag : ℚ := (d.mant : ℚ) / 10 ^ d.fracLen
  let sc : ℚ := if d.expNeg then mag / 10 ^ d.exp else mag * 10 ^ d.exp
  if d.neg then -sc else sc

/-- Longest-prefix parse of an unsigned decimal literal
(digits, digits.digits, .digits, digits.); none when no digit is read.
Returns (mantissa, fraction length) and the unread rest. -/
def parseDecimal (l : List Char) : Option ((ℕ × ℕ) × List Char) :=
  if (l.dropWhile Char.isDigit).head? = some '.' then
    if (l.takeWhile Char.isDigit).isEmpty &&
        ((l.dropWhile Char.isDigit).tail.takeWhile Char.isDigit).isEmpty then
      none
    else
      some ((digitsVal (l.takeWhile Char.isDigit ++
              (l.dropWhile Char.isDigit).tail.takeWhile Char.isDigit),
            ((l.dropWhile Char.isDigit).tail.takeWhile Char.isDigit).length),
          (l.dropWhile Char.isDigit).tail.dropWhile Char.isDigit)
  else if (l.takeWhile Char.isDigit).isEmpty then none
  else some ((digitsVal (l.takeWhile Char.isDigit), 0), l.dropWhile Char.isDigit)

/-- Optional exponent part e[+-]digits; an e or E not followed by a
digit is not consumed, as in parseFloat. -/
def parseExp (l : List Char) : Bool × ℕ :=
  if l.head? = some 'e' || l.head? = some 'E' then
    if ((parseSign l.tail).2.takeWhile Char.isDigit).isEmpty then (false, 0)
    else ((parseSign l.tail).1, digitsVal ((parseSign l.tail).2.takeWhile Char.isDigit))
  else (false, 0)

/-- JavaScript parseFloat, symbolic result: skip leading whitespace,
read the longest prefix that is a signed decimal literal with optional
exponent, ignore the rest; none models NaN (no parsable prefix). -/
def jsParseFloatSym (l : List Char) : Option DecNum :=
  match parseDecimal (parseSign (l.dropWhile jsWs)).2 with
  | none => none
  | some (md, r) =>
    some ⟨(parseSign (l.dropWhile jsWs)).1, md.1, md.2,
      (parseExp r).1, (parseExp r).2⟩

/-- JavaScript parseFloat as a rational. -/
def jsParseFloat (l : List Char) : Option ℚ :=
  (jsParseFloatSym l).map DecNum.toRat

/-- parseAmount from send.ts / gig.ts: trailing cent sign divides the
parsed number by 100; a leading dollar sign followed by a bare integer
(regex of one or more digits only) is rejected as shell-ambiguous, any
other dollar suffix is parsed as a float; otherwise the trimmed string
is parsed as a bare float.  An error models a thrown exception. -/
def parseAmount (amountStr : String) : Except String ℚ :=
  if (jsTrim amountStr.data).getLast? = some '¢' then
    match jsParseFloat (jsTrim amountStr.data).dropLast with
    | none => .error "Invalid cents amount"
    | some cents => .ok (cents / 100)
  else if (jsTrim amountStr.data).head? = some '$' then
    if !(jsTrim amountStr.data).tail.isEmpty &&
        (jsTrim amountStr.data).tail.all Char.isDigit then
      .error "Dollar amounts like this can be interpreted as shell variables. Please use cents instead."
    else
      match jsParseFloat (jsTrim amountStr.data).tail with
      | none => .error "Invalid dollar amount"
      | some dollars => .ok dollars
  else
    match jsParseFloat (jsTrim amountStr.data) with
    | none => .error "Invalid amount"
    | some amount => .ok amount

/-- The amount handling of the send command: parseAmount followed by the
amount-must-be-positive check (send.ts lines 93 to 96). -/
def sendAmount (s : String) : Except String ℚ :=
  match parseAmount s with
  | .error e => .error e
  | .ok amount =>
    if amount ≤ 0 then .error "Amount must be greater than 0" else .ok amount

/-- The numeric reading of an amount string under the three accepted
notations (cents suffix, dollar prefix, bare decimal); none when the
string is non-numeric under the notation that applies to it. -/
def amountNumeric (s : String) : Option ℚ :=
  if (jsTrim s.data).getLast? = some '¢' then
    (jsParseFloat (jsTrim s.data).dropLast).map (· / 100)
  else if (jsTrim s.data).head? = some '$' then jsParseFloat (jsTrim s.data).tail
  else jsParseFloat (jsTrim s.data)

/-- Whether the string is a dollar-prefixed bare integer, the
shell-ambiguous shape the dollar branch rejects. -/
def dollarBareInt (s : String) : Bool :=
  if (jsTrim s.data).getLast? = some '¢' then false
  else if (jsTrim s.data).head? = some '$' then
    !(jsTrim s.data).tail.isEmpty && (jsTrim s.data).tail.all Char.isDigit
  else false

/-! ## Recipient parsing (gig-era send.ts, parseRecipient) -/

/-- The two recipient platforms. -/
inductive Platform
  | x
  | moltbook
deriving DecidableEq

/-- A parsed recipient: platform tag and username. -/
structure Recipient where
  type : Platform
  username : String
deriving DecidableEq

/-- JavaScript String.prototype.toLowerCase restricted to ASCII, which
is all the alias and network comparisons consult. -/
def toLowerStr (s : String) : String := String.mk (s.data.map Char.toLower)

/-- Split at the first '/' (JavaScript indexOf); none when absent. -/
def splitFirstSlash : List Char → Option (List Char × List Char)
  | [] => none
  | c :: rest =>
    if c = '/' then some ([], rest)
    else
      match splitFirstSlash rest with
      | none => none
      | some (p, u) => some (c :: p, u)

/-- Accepted platform aliases for X. -/
def xAliases : List String := ["x", "x.com", "twitter", "twitter.com"]

/-- Accepted platform aliases for Moltbook. -/
def moltbookAliases : List String := ["moltbook", "moltbook.com"]

/-- One character of the moltbook username character class
[a-zA-Z0-9_-]. -/
def moltbookUserChar (c : Char) : Bool :=
  c.isAlpha || c.isDigit || c = '_' || c = '-'

/-- The anchored moltbook username rule: 1 to 30 characters of the
class. -/
def moltbookUsernameOk (u : List Char) : Bool :=
  u.all moltbookUserChar && 1 ≤ u.length && u.length ≤ 30

/-- parseRecipient from the gig-era send.ts: split at the first slash,
lowercase the platform, require a nonempty username, map X aliases
verbatim, validate the username rule for moltbook only, reject unknown
platforms.  An error models both the thrown exceptions and the
usage-guidance exit of the missing-separator branch. -/
def parseRecipient (input : String) : Except String Recipient :=
  match splitFirstSlash input.data with
  | none => .error "Invalid recipient format"
  | some (pl, ul) =>
    let platform := String.mk (pl.map Char.toLower)
    let username := String.mk ul
    if ul.isEmpty then .error "Missing username after the platform"
    else if platform ∈ xAliases then .ok ⟨.x, username⟩
    else if platform ∈ moltbookAliases then
      if moltbookUsernameOk ul then .ok ⟨.moltbook, username⟩
      else .error "Invalid moltbook username. Must be 1-30 alphanumeric characters, underscores, or hyphens."
    else .error "Unknown platform. Use x for X users or moltbook for Moltbook users."

/-! ## Network and signer selection -/

/-- The two supported networks. -/
inductive Network
  | base
  | solana
deriving DecidableEq

/-- The allowedNetworks list of send.ts / gig.ts. -/
def allowedNetworks : List String := ["base", "solana"]

/-- Network selection from send.ts lines 102 to 143 (identical in gig
handleCreate): keys are the truthiness of EVM_PRIVATE_KEY and
SVM_PRIVATE_KEY, the flag is the optional --network value.  With a flag,
its lowercase form must name a network and the matching key must be
present; with no flag, exactly one key must be present and picks the
network.  An error models console.error plus process.exit(1). -/
def selectNetwork (hasEvmKey hasSvmKey : Bool) (flag : Option String) :
    Except String Network :=
  match flag with
  | some f =>
    if !(allowedNetworks.contains (toLowerStr f)) then
      .error "Network must be either base or solana"
    else
      let useSolana := toLowerStr f == "solana"
      if useSolana && !hasSvmKey then
        .error "Missing SVM_PRIVATE_KEY environment variable"
      else if !useSolana && !hasEvmKey then
        .error "Missing EVM_PRIVATE_KEY environment variable"
      else .ok (if useSolana then .solana else .base)
  | none =>
    if hasEvmKey && hasSvmKey then
      .error "Both EVM_PRIVATE_KEY and SVM_PRIVATE_KEY are set"
    else if hasSvmKey then .ok .solana
    else if hasEvmKey then .ok .base
    else .error "No private keys found"

/-! ## JSON-RPC request and response shapes

The wire shapes are embedded structurally.  Base64 plus JSON.parse of an
artifact data field is external library behavior; an artifact here
carries the decode outcome directly: none means no data field, some none
means a data field whose decode throws (the loop skips it), some (some d)
means a decodable payload d. -/

/-- JavaScript a || b on an optional string: b when a is absent or
empty (falsy), a otherwise. -/
def jsOr (a : Option String) (b : String) : String :=
  match a with
  | some s => if s = "" then b else s
  | none => b

/-- Truthiness of an optional environment variable or response id:
present and nonempty. -/
def truthyStr (t : Option String) : Bool :=
  match t with
  | some s => s ≠ ""
  | none => false

/-- A value in a JSON-RPC params object. -/
inductive JVal
  | str (s : String)
  | num (q : ℚ)
  | missing
  | payload (p : String)
  | obj (fields : List (String × String))
deriving DecidableEq

/-- One JSON-RPC request as put on the wire by the CLI: method, params
object, and whether the identity-token and x402-extension headers are
attached. -/
structure A2ARequest where
  method : String
  params : List (String × JVal)
  identityHeader : Bool
  extensionHeader : Bool
deriving DecidableEq

/-- One part of a task status message. -/
structure MsgPart where
  kind : String
  text : String
deriving DecidableEq

/-- A task status message: optional parts array and the optional
x402.payment.required metadata entry (an opaque requirements blob). -/
structure TaskMessage where
  parts : Option (List MsgPart)
  paymentRequired : Option String
deriving DecidableEq

/-- A task status: optional state string and optional message. -/
structure TaskStatus where
  state : Option String
  message : Option TaskMessage
deriving DecidableEq

/-- Decoded artifact payload fields the CLI prints. -/
structure ArtifactData where
  amount : Option ℚ
  molty : Option String
  x_handle : Option String
  txn : Option String
deriving DecidableEq

/-- One response artifact; see the section comment for the data field. -/
structure Artifact where
  data : Option (Option ArtifactData)
deriving DecidableEq

/-- A JSON-RPC result (A2A task). -/
structure TaskResult where
  id : Option String
  status : Option TaskStatus
  artifacts : Option (List Artifact)
deriving DecidableEq

/-- A JSON-RPC error envelope. -/
structure RpcError where
  message : Option String
deriving DecidableEq

/-- A JSON-RPC response body: either an error envelope or a result. -/
structure RpcResponse where
  error : Option RpcError
  result : TaskResult
deriving DecidableEq

/-- The optional-chain phase1Result.status?.message?.metadata
x402.payment.required. -/
def paymentReq (t : TaskResult) : Option String :=
  match t.status with
  | none => none
  | some st =>
    match st.message with
    | none => none
    | some m => m.paymentRequired

/-- The joined text parts of a task status message, as in
status?.message?.parts?.filter(kind === text).map(text).join;
none when the optional chain is undefined. -/
def statusText (t : TaskResult) : Option String :=
  match t.status with
  | none => none
  | some st =>
    match st.message with
    | none => none
    | some m =>
      match m.parts with
      | none => none
      | some ps =>
        some (String.intercalate "\n" ((ps.filter (fun p => p.kind = "text")).map MsgPart.text))

/-- Whether the task state is failed or canceled. -/
def taskFailed (t : TaskResult) : Bool :=
  match t.status with
  | none => false
  | some st =>
    match st.state with
    | none => false
    | some s => s = "failed" || s = "canceled"

/-- First artifact whose data field is present and decodes; skips
artifacts whose decode throws, as the for loop with try/catch does. -/
def firstArtifact : List Artifact → Option ArtifactData
  | [] => none
  | a :: rest =>
    match a.data with
    | some (some d) => some d
    | _ => firstArtifact rest

/-- The JVal a task id contributes when spread into phase-2 params
(undefined when the response had no id). -/
def jvalOfId (id : Option String) : JVal :=
  match id with
  | some s => .str s
  | none => .missing

/-- JavaScript object-spread assignment of one key: overwrite in place
when the key exists, append otherwise. -/
def setKey (ps : List (String × JVal)) (k : String) (v : JVal) :
    List (String × JVal) :=
  if ps.any (fun p => p.1 = k) then
    ps.map (fun p => if p.1 = k then (k, v) else p)
  else ps ++ [(k, v)]

/-- The spread ...params, taskId: i, payment: p of the phase-2 body. -/
def spreadPhase2 (ps : List (String × JVal)) (i : JVal) (p : String) :
    List (String × JVal) :=
  setKey (setKey ps "taskId" i) "payment" (.payload p)

/-! ## gig.ts: a2aCall and the two-phase earnerCall -/

/-- The request a2aCall puts on the wire: identity header iff the token
is truthy, extension header iff passed in extraHeaders. -/
def a2aCallReq (tok : Option String) (ext : Bool) (method : String)
    (ps : List (String × JVal)) : A2ARequest :=
  ⟨method, ps, truthyStr tok, ext⟩

/-- a2aCall result handling: a JSON-RPC error envelope becomes a thrown
error with its message (or the fallback), otherwise the result is
returned. -/
def a2aCallResult (resp : RpcResponse) : Except String TaskResult :=
  match resp.error with
  | some e => .error (jsOr e.message "A2A request failed")
  | none => .ok resp.result

/-- What earnerCall hands back on success. -/
inductive EarnerResult
  | fromArtifact (d : ArtifactData)
  | raw (t : TaskResult)
deriving DecidableEq

/-- earnerCall from gig.ts lines 123 to 160: phase 1 submits the action,
its payment requirements are signed (sign models the imported payment
client), phase 2 resubmits the same method with taskId and payment
spread into the params; a failed or canceled phase-2 task state becomes
a thrown error carrying the joined status text.  Returns the requests
put on the wire and the outcome; an error propagates to the gig main
catch, which prints it and exits 1. -/
def earnerCall (tok : Option String) (sign : String → String)
    (method : String) (ps : List (String × JVal))
    (resp1 resp2 : RpcResponse) :
    List A2ARequest × Except String EarnerResult :=
  match a2aCallResult resp1 with
  | .error e => ([a2aCallReq tok true method ps], .error e)
  | .ok phase1 =>
    match paymentReq phase1 with
    | none =>
      ([a2aCallReq tok true method ps], .error "No payment requirements in response")
    | some pr =>
      match a2aCallResult resp2 with
      | .error e =>
        ([a2aCallReq tok true method ps,
          a2aCallReq tok true method (spreadPhase2 ps (jvalOfId phase1.id) (sign pr))],
          .error e)
      | .ok phase2 =>
        if taskFailed phase2 then
          ([a2aCallReq tok true method ps,
            a2aCallReq tok true method (spreadPhase2 ps (jvalOfId phase1.id) (sign pr))],
            .error (jsOr (statusText phase2) (method ++ " failed")))
        else
          match firstArtifact (phase2.artifacts.getD []) with
          | some d =>
            ([a2aCallReq tok true method ps,
              a2aCallReq tok true method (spreadPhase2 ps (jvalOfId phase1.id) (sign pr))],
              .ok (.fromArtifact d))
          | none =>
            ([a2aCallReq tok true method ps,
              a2aCallReq tok true method (spreadPhase2 ps (jvalOfId phase1.id) (sign pr))],
              .ok (.raw phase2))

/-! ## send.ts: the two-phase molty.send flow -/

/-- Outcome of the send command: a decoded-artifact success print, a
fallback status-text success print (both exit 0), or a caught error
print with exit 1. -/
inductive SendOutcome
  | artifactSuccess (d : ArtifactData)
  | textSuccess (msg : String)
  | failure (msg : String)
deriving DecidableEq

/-- The description string of the payment params. -/
def sendDescription (useSolana : Bool) : String :=
  "Payment via moltycash-cli (" ++ (if useSolana then "Solana" else "Base") ++ ")"

/-- payParams of send.ts: molty for a moltbook recipient, x_handle for
an X recipient, then amount, description and meta. -/
def sendParams (r : Recipient) (amount : ℚ) (useSolana : Bool) :
    List (String × JVal) :=
  (match r.type with
    | .moltbook => [("molty", .str r.username)]
    | .x => [("x_handle", .str r.username)]) ++
  [("amount", .num amount),
   ("description", .str (sendDescription useSolana)),
   ("meta", .obj [("agent_name", "moltycash-cli")])]

/-- main of send.ts, from the phase-1 POST on: a JSON-RPC error envelope
at either phase is thrown and caught (exit 1 with its message); phase 2
resubmits molty.send with taskId and payment spread into the params; the
phase-2 result is reported from the first decodable artifact, else from
the joined status text, with no inspection of the task state.  Returns
the requests put on the wire and the outcome. -/
def sendFlow (tok : Option String) (sign : String → String)
    (r : Recipient) (amount : ℚ) (useSolana : Bool)
    (resp1 resp2 : RpcResponse) : List A2ARequest × SendOutcome :=
  match resp1.error with
  | some e =>
    ([⟨"molty.send", sendParams r amount useSolana, truthyStr tok, true⟩],
      .failure (jsOr e.message "A2A request failed"))
  | none =>
    if !truthyStr resp1.result.id then
      ([⟨"molty.send", sendParams r amount useSolana, truthyStr tok, true⟩],
        .failure "Missing task ID in response")
    else
      match paymentReq resp1.result with
      | none =>
        ([⟨"molty.send", sendParams r amount useSolana, truthyStr tok, true⟩],
          .failure "No payment requirements found in response")
      | some pr =>
        match resp2.error with
        | some e =>
          ([⟨"molty.send", sendParams r amount useSolana, truthyStr tok, true⟩,
            ⟨"molty.send",
              spreadPhase2 (sendParams r amount useSolana) (jvalOfId resp1.result.id) (sign pr),
              truthyStr tok, true⟩],
            .failure (jsOr e.message "Payment failed"))
        | none =>
          match firstArtifact (resp2.result.artifacts.getD []) with
          | some d =>
            ([⟨"molty.send", sendParams r amount useSolana, truthyStr tok, true⟩,
              ⟨"molty.send",
                spreadPhase2 (sendParams r amount useSolana) (jvalOfId resp1.result.id) (sign pr),
                truthyStr tok, true⟩],
              .artifactSuccess d)
          | none =>
            ([⟨"molty.send", sendParams r amount useSolana, truthyStr tok, true⟩,
              ⟨"molty.send",
                spreadPhase2 (sendParams r amount useSolana) (jvalOfId resp1.result.id) (sign pr),
                truthyStr tok, true⟩],
              .textSuccess (jsOr (statusText resp2.result) "Payment sent"))

/-! ## gig.ts: handleCreate and the other subcommands -/

/-- Outcome of gig create: artifact success print, fallback text success
print (both exit 0), or failure print with exit 1. -/
inductive CreateOutcome
  | artifactSuccess (d : ArtifactData)
  | textSuccess (msg : String)
  | failure (msg : String)
deriving DecidableEq

/-- handleCreate phase-2 result handling (gig.ts lines 289 to 323): the
artifact loop returns success first; only when no artifact decodes is
the failed or canceled task state checked and turned into exit 1. -/
def createPhase2Handle (t : TaskResult) : CreateOutcome :=
  match firstArtifact (t.artifacts.getD []) with
  | some d => .artifactSuccess d
  | none =>
    if taskFailed t then .failure (jsOr (statusText t) "Gig creation failed")
    else .textSuccess (jsOr (statusText t) "Gig created")

/-- handleCreate from the phase-1 call on: the two a2aCall phases on
gig.create with the funding params, a missing-task-id or
missing-payment-requirements throw, then the phase-2 handling above.
An error propagates to the gig main catch, which prints it and
exits 1. -/
def createParams (amount perPostPrice : ℚ) (description : String) :
    List (String × JVal) :=
  [("amount", .num amount), ("per_post_price", .num perPostPrice),
    ("description", .str description)]

def handleCreateTrace (tok : Option String) (sign : String → String)
    (amount perPostPrice : ℚ) (description : String)
    (resp1 resp2 : RpcResponse) :
    List A2ARequest × Except String CreateOutcome :=
  match a2aCallResult resp1 with
  | .error e =>
    ([a2aCallReq tok true "gig.create" (createParams amount perPostPrice description)],
      .error e)
  | .ok phase1 =>
    if !truthyStr phase1.id then
      ([a2aCallReq tok true "gig.create" (createParams amount perPostPrice description)],
        .error "Missing task ID in response")
    else
      match paymentReq phase1 with
      | none =>
        ([a2aCallReq tok true "gig.create" (createParams amount perPostPrice description)],
          .error "No payment requirements found in response")
      | some pr =>
        match a2aCallResult resp2 with
        | .error e =>
          ([a2aCallReq tok true "gig.create" (createParams amount perPostPrice description),
            a2aCallReq tok true "gig.create"
              (spreadPhase2 (createParams amount perPostPrice description)
                (jvalOfId phase1.id) (sign pr))],
            .error e)
        | .ok phase2 =>
          ([a2aCallReq tok true "gig.create" (createParams amount perPostPrice description),
            a2aCallReq tok true "gig.create"
              (spreadPhase2 (createParams amount perPostPrice description)
                (jvalOfId phase1.id) (sign pr))],
            .ok (createPhase2Handle phase2))

/-- The gig entry point around every subcommand. -/
inductive GigRun (α : Type)
  | refused (msg : String)
  | ran (a : α)
deriving DecidableEq

/-- The identity-token guard of gig.ts lines 553 to 558: it runs before
the subcommand switch, so a missing or empty MOLTY_IDENTITY_TOKEN
refuses every subcommand with exit 1. -/
def gigMain {α : Type} (tok : Option String) (run : α) : GigRun α :=
  if truthyStr tok then .ran run
  else .refused "Missing MOLTY_IDENTITY_TOKEN environment variable"

/-- handleCreated: one a2aCall on gig.my_created. -/
def handleCreatedTrace (tok : Option String) (resp : RpcResponse) :
    List A2ARequest × Except String TaskResult :=
  ([a2aCallReq tok false "gig.my_created" []], a2aCallResult resp)

/-- handleGet: one a2aCall on gig.get. -/
def handleGetTrace (tok : Option String) (gigId : String) (resp : RpcResponse) :
    List A2ARequest × Except String TaskResult :=
  ([a2aCallReq tok false "gig.get" [("gig_id", .str gigId)]], a2aCallResult resp)

/-- handleReview: one a2aCall on gig.review, the reason key spread in
only when a reason is given. -/
def handleReviewTrace (tok : Option String)
    (gigId assignmentId action : String) (reason : Option String)
    (resp : RpcResponse) : List A2ARequest × Except String TaskResult :=
  ([a2aCallReq tok false "gig.review"
      ([("gig_id", .str gigId), ("assignment_id", .str assignmentId),
        ("action", .str action)] ++
        (match reason with
          | some rs => [("reason", .str rs)]
          | none => []))],
    a2aCallResult resp)

/-- handleList: earnerCall on gig.list. -/
def handleListTrace (tok : Option String) (sign : String → String)
    (resp1 resp2 : RpcResponse) : List A2ARequest × Except String EarnerResult :=
  earnerCall tok sign "gig.list" [] resp1 resp2

/-- handlePick: earnerCall on gig.pick. -/
def handlePickTrace (tok : Option String) (sign : String → String)
    (gigId : String) (resp1 resp2 : RpcResponse) :
    List A2ARequest × Except String EarnerResult :=
  earnerCall tok sign "gig.pick" [("gig_id", .str gigId)] resp1 resp2

/-- handleSubmit: earnerCall on gig.submit_proof. -/
def handleSubmitTrace (tok : Option String) (sign : String → String)
    (gigId proof : String) (resp1 resp2 : RpcResponse) :
    List A2ARequest × Except String EarnerResult :=
  earnerCall tok sign "gig.submit_proof"
    [("gig_id", .str gigId), ("proof", .str proof)] resp1 resp2

/-- handlePicked: earnerCall on gig.my_accepted. -/
def handlePickedTrace (tok : Option String) (sign : String → String)
    (resp1 resp2 : RpcResponse) : List A2ARequest × Except String EarnerResult :=
  earnerCall tok sign "gig.my_accepted" [] resp1 resp2

/-- handleDisputeEarner: earnerCall on gig.earner_dispute. -/
def handleDisputeTrace (tok : Option String) (sign : String → String)
    (gigId assignmentId reason : String) (resp1 resp2 : RpcResponse) :
    List A2ARequest × Except String EarnerResult :=
  earnerCall tok sign "gig.earner_dispute"
    [("gig_id", .str gigId), ("assignment_id", .str assignmentId),
      ("reason", .str reason)] resp1 resp2

/-! Concrete response fixtures used by witnesses and counterexamples. -/

/-- A phase-1 response granting a task id and payment requirements. -/
def respPayReq : RpcResponse :=
  ⟨none, ⟨some "task_1", some ⟨some "input-required", some ⟨none, some "PR"⟩⟩, none⟩⟩

/-- A phase-2 response whose task failed, with no artifacts and an empty
parts array. -/
def respFailed : RpcResponse :=
  ⟨none, ⟨some "task_1", some ⟨some "failed", some ⟨some [], none⟩⟩, none⟩⟩

/-- A phase-2 response whose task completed, with no artifacts. -/
def respDone : RpcResponse :=
  ⟨none, ⟨some "task_1", some ⟨some "completed", some ⟨some [⟨"text", "ok"⟩], none⟩⟩, none⟩⟩

/-- A response carrying a JSON-RPC error envelope. -/
def respErr : RpcResponse := ⟨some ⟨some "boom"⟩, ⟨none, none, none⟩⟩

/-! ## Helper lemmas -/

/-! Evaluation lemmas for concrete amount strings: the character-level
work is decided by the kernel, only the final rational value is left. -/

theorem parseAmount_cents_eval (s : String) (d : DecNum)
    (h1 : (jsTrim s.data).getLast? = some '¢')
    (h2 : jsParseFloatSym (jsTrim s.data).dropLast = some d) :
    parseAmount s = .ok (d.toRat / 100) := by
  unfold parseAmount jsParseFloat
  simp [h1, h2]

theorem parseAmount_dollar_eval (s : String) (d : DecNum)
    (h1 : ¬(jsTrim s.data).getLast? = some '¢')
    (h2 : (jsTrim s.data).head? = some '$')
    (h3 : ¬((jsTrim s.data).tail ≠ [] ∧ (jsTrim s.data).tail.all Char.isDigit))
    (h4 : jsParseFloatSym (jsTrim s.data).tail = some d) :
    parseAmount s = .ok d.toRat := by
  unfold parseAmount jsParseFloat
  rw [if_neg h1, if_pos h2]
  have h3' : ¬(!(jsTrim s.data).tail.isEmpty && (jsTrim s.data).tail.all Char.isDigit) = true := by
    simpa [List.isEmpty_iff, -ne_eq] using h3
  rw [if_neg h3']
  simp [h4]

theorem parseAmount_plain_eval (s : String) (d : DecNum)
    (h1 : ¬(jsTrim s.data).getLast? = some '¢')
    (h2 : ¬(jsTrim s.data).head? = some '$')
    (h3 : jsParseFloatSym (jsTrim s.data) = some d) :
    parseAmount s = .ok d.toRat := by
  unfold parseAmount jsParseFloat
  rw [if_neg h1, if_neg h2]
  simp [h3]



theorem dropWhile_eq_self_of_all {p : Char → Bool} {l : List Char}
    (h : ∀ c ∈ l, p c = false) : l.dropWhile p = l := by
  cases l with
  | nil => rfl
  | cons c cs => rw [List.dropWhile_cons, h c (by simp)]; simp

theorem jsTrim_eq_self {l : List Char} (h : ∀ c ∈ l, jsWs c = false) :
    jsTrim l = l := by
  unfold jsTrim
  rw [dropWhile_eq_self_of_all h,
    dropWhile_eq_self_of_all (fun c hc => h c (List.mem_reverse.mp hc)),
    List.reverse_reverse]

theorem takeWhile_append_all {p : Char → Bool} {l r : List Char}
    (h : ∀ c ∈ l, p c = true) : (l ++ r).takeWhile p = l ++ r.takeWhile p := by
  induction l with
  | nil => rfl
  | cons c cs ih =>
    rw [List.cons_append, List.takeWhile_cons, h c (by simp), List.cons_append,
      ih (fun c hc => h c (by simp [hc]))]
    simp

theorem dropWhile_append_all {p : Char → Bool} {l r : List Char}
    (h : ∀ c ∈ l, p c = true) : (l ++ r).dropWhile p = r.dropWhile p := by
  induction l with
  | nil => rfl
  | cons c cs ih =>
    rw [List.cons_append, List.dropWhile_cons, h c (by simp),
      ih (fun c hc => h c (by simp [hc]))]
    simp

theorem digitsVal_concat (l : List Char) (c : Char) :
    digitsVal (l ++ [c]) = 10 * digitsVal l + digitVal c := by
  simp [digitsVal, List.foldl_append]

theorem jsWs_false_of_isDigit {c : Char} (h : c.isDigit = true) :
    jsWs c = false := by
  have h1 : c ≠ ' ' := by intro h1; rw [h1] at h; exact absurd h (by decide)
  have h2 : c ≠ '\t' := by intro h2; rw [h2] at h; exact absurd h (by decide)
  have h3 : c ≠ '\n' := by intro h3; rw [h3] at h; exact absurd h (by decide)
  have h4 : c ≠ '\r' := by intro h4; rw [h4] at h; exact absurd h (by decide)
  have h5 : c ≠ '\x0b' := by intro h5; rw [h5] at h; exact absurd h (by decide)
  have h6 : c ≠ '\x0c' := by intro h6; rw [h6] at h; exact absurd h (by decide)
  have h7 : c ≠ ' ' := by intro h7; rw [h7] at h; exact absurd h (by decide)
  simp [jsWs, h1, h2, h3, h4, h5, h6, h7]

theorem ne_specials_of_isDigit {c : Char} (h : c.isDigit = true) :
    c ≠ '-' ∧ c ≠ '+' ∧ c ≠ '¢' ∧ c ≠ '.' := by
  refine ⟨?_, ?_, ?_, ?_⟩ <;> intro h1 <;> rw [h1] at h <;> exact absurd h (by decide)

theorem splitFirstSlash_append (p u : List Char) (hp : '/' ∉ p) :
    splitFirstSlash (p ++ '/' :: u) = some (p, u) := by
  induction p with
  | nil => simp [splitFirstSlash]
  | cons c cs ih =>
    simp only [List.mem_cons, not_or] at hp
    rw [List.cons_append]
    unfold splitFirstSlash
    rw [if_neg (by simpa [eq_comm] using hp.1), ih hp.2]

theorem setKey_of_not_mem (ps : List (String × JVal)) (k : String) (v : JVal)
    (h : ps.any (fun q => q.1 = k) = false) : setKey ps k v = ps ++ [(k, v)] := by
  simp only [setKey, h]
  rw [if_neg (by simp [h])]

theorem spreadPhase2_of_not_mem (ps : List (String × JVal)) (i : JVal) (p : String)
    (h1 : ps.any (fun q => q.1 = "taskId") = false)
    (h2 : ps.any (fun q => q.1 = "payment") = false) :
    spreadPhase2 ps i p = ps ++ [("taskId", i), ("payment", .payload p)] := by
  unfold spreadPhase2
  rw [setKey_of_not_mem _ _ _ h1, setKey_of_not_mem, List.append_assoc]
  · rfl
  · simp [h2]

/-! ## Claims -/

/-- C1: network selection is a total function of the two optional key
environment variables and the optional --network flag.  A flag naming
base (case-insensitively) selects Base when the EVM key is set and fails
otherwise; a flag naming solana selects Solana when the SVM key is set
and fails otherwise; any other flag value fails; with no flag, Base is
selected when only the EVM key is set, Solana when only the SVM key is
set, and both-set and neither-set fail. -/
theorem claim_C1_network_selection (evm svm : Bool) (f : String) :
    (toLowerStr f = "base" →
      selectNetwork evm svm (some f) =
        if evm then .ok .base
        else .error "Missing EVM_PRIVATE_KEY environment variable") ∧
    (toLowerStr f = "solana" →
      selectNetwork evm svm (some f) =
        if svm then .ok .solana
        else .error "Missing SVM_PRIVATE_KEY environment variable") ∧
    (toLowerStr f ≠ "base" → toLowerStr f ≠ "solana" →
      selectNetwork evm svm (some f) =
        .error "Network must be either base or solana") ∧
    (selectNetwork evm svm none =
      match evm, svm with
      | true, true => .error "Both EVM_PRIVATE_KEY and SVM_PRIVATE_KEY are set"
      | true, false => .ok .base
      | false, true => .ok .solana
      | false, false => .error "No private keys found") := by
  refine ⟨?_, ?_, ?_, ?_⟩
  · intro h
    simp only [selectNetwork, allowedNetworks, h]
    cases evm <;> cases svm <;> simp
  · intro h
    simp only [selectNetwork, allowedNetworks, h]
    cases evm <;> cases svm <;> simp
  · intro h1 h2
    simp only [selectNetwork, allowedNetworks]
    rw [if_pos]
    simp [h1, h2]
  · cases evm <;> cases svm <;> simp [selectNetwork]

/-- Witness for C1 at a concrete input: an uppercase base flag with only
the EVM key set selects Base. -/
theorem claim_C1_network_selection_witness :
    selectNetwork true false (some "BASE") = .ok .base := by
  have h := (claim_C1_network_selection true false "BASE").1 (by decide)
  simpa using h

/-- C2: the amount parser maps 50¢, $0.5 and 0.5 to one half, fails on
$5 (dollar-prefixed bare integer) and on abc (non-numeric); in general a
trailing cent sign divides the parsed number by 100, a leading dollar
sign followed by anything other than a bare integer is parsed as a
float, and otherwise the string is parsed as a bare float. -/
theorem claim_C2_amount_parsing :
    parseAmount "50¢" = .ok (1 / 2) ∧
    parseAmount "$0.5" = .ok (1 / 2) ∧
    parseAmount "0.5" = .ok (1 / 2) ∧
    (parseAmount "$5").isOk = false ∧
    (parseAmount "abc").isOk = false ∧
    (∀ (s : String) (d : DecNum), (jsTrim s.data).getLast? = some '¢' →
      jsParseFloatSym (jsTrim s.data).dropLast = some d →
      parseAmount s = .ok (d.toRat / 100)) ∧
    (∀ (s : String) (d : DecNum), ¬(jsTrim s.data).getLast? = some '¢' →
      (jsTrim s.data).head? = some '$' →
      ¬((jsTrim s.data).tail ≠ [] ∧ (jsTrim s.data).tail.all Char.isDigit) →
      jsParseFloatSym (jsTrim s.data).tail = some d →
      parseAmount s = .ok d.toRat) ∧
    (∀ (s : String) (d : DecNum), ¬(jsTrim s.data).getLast? = some '¢' →
      ¬(jsTrim s.data).head? = some '$' →
      jsParseFloatSym (jsTrim s.data) = some d →
      parseAmount s = .ok d.toRat) := by
  refine ⟨?_, ?_, ?_, by decide, by decide,
    parseAmount_cents_eval, parseAmount_dollar_eval, parseAmount_plain_eval⟩
  · rw [parseAmount_cents_eval "50¢" ⟨false, 50, 0, false, 0⟩ (by decide) (by decide)]
    norm_num [DecNum.toRat]
  · rw [parseAmount_dollar_eval "$0.5" ⟨false, 5, 1, false, 0⟩
      (by decide) (by decide) (by decide) (by decide)]
    norm_num [DecNum.toRat]
  · rw [parseAmount_plain_eval "0.5" ⟨false, 5, 1, false, 0⟩
      (by decide) (by decide) (by decide)]
    norm_num [DecNum.toRat]

/-- Witness for C2 at a concrete input: the cents branch applied to 50¢
divides the parsed 50 by 100. -/
theorem claim_C2_amount_parsing_witness :
    parseAmount "50¢" = .ok ((DecNum.mk false 50 0 false 0).toRat / 100) :=
  claim_C2_amount_parsing.2.2.2.2.2.1 "50¢" ⟨false, 50, 0, false, 0⟩
    (by decide) (by decide)

theorem xAliases_no_slash {p : List Char}
    (h : String.mk (p.map Char.toLower) ∈ xAliases) : '/' ∉ p := by
  intro hmem
  have hm : '/' ∈ p.map Char.toLower := List.mem_map.mpr ⟨'/', hmem, rfl⟩
  simp only [xAliases, List.mem_cons, List.not_mem_nil, or_false] at h
  rcases h with h | h | h | h <;>
  · have h2 : p.map Char.toLower = _ := congrArg String.data h
    rw [h2] at hm
    exact absurd hm (by decide)

theorem moltbookAliases_no_slash {p : List Char}
    (h : String.mk (p.map Char.toLower) ∈ moltbookAliases) : '/' ∉ p := by
  intro hmem
  have hm : '/' ∈ p.map Char.toLower := List.mem_map.mpr ⟨'/', hmem, rfl⟩
  simp only [moltbookAliases, List.mem_cons, List.not_mem_nil, or_false] at h
  rcases h with h | h <;>
  · have h2 : p.map Char.toLower = _ := congrArg String.data h
    rw [h2] at hm
    exact absurd hm (by decide)

theorem moltbook_alias_not_x {p : List Char}
    (h : String.mk (p.map Char.toLower) ∈ moltbookAliases) :
    String.mk (p.map Char.toLower) ∉ xAliases := by
  simp only [moltbookAliases, List.mem_cons, List.not_mem_nil, or_false] at h
  rcases h with h | h <;> rw [h] <;> decide

theorem parseRecipient_split (p u : List Char) (hp : '/' ∉ p) :
    parseRecipient (String.mk (p ++ '/' :: u)) =
      (if u.isEmpty then .error "Missing username after the platform"
       else if String.mk (p.map Char.toLower) ∈ xAliases then
         .ok ⟨.x, String.mk u⟩
       else if String.mk (p.map Char.toLower) ∈ moltbookAliases then
         if moltbookUsernameOk u then .ok ⟨.moltbook, String.mk u⟩
         else .error "Invalid moltbook username. Must be 1-30 alphanumeric characters, underscores, or hyphens."
       else .error "Unknown platform. Use x for X users or moltbook for Moltbook users.") := by
  unfold parseRecipient
  rw [show (String.mk (p ++ '/' :: u)).data = p ++ '/' :: u from rfl,
    splitFirstSlash_append p u hp]

/-- C3: the recipient parser accepts x/nikitabier and moltbook/Foo_1,
rejects moltbook/bad!name through the moltbook username rule, rejects
nohandle because the separator is absent, and rejects every platform
prefix outside the two alias sets. -/
theorem claim_C3_recipient_parsing :
    parseRecipient "x/nikitabier" = .ok ⟨.x, "nikitabier"⟩ ∧
    parseRecipient "moltbook/Foo_1" = .ok ⟨.moltbook, "Foo_1"⟩ ∧
    (parseRecipient "moltbook/bad!name").isOk = false ∧
    moltbookUsernameOk "bad!name".data = false ∧
    (parseRecipient "nohandle").isOk = false ∧
    splitFirstSlash "nohandle".data = none ∧
    (∀ (p u : List Char), '/' ∉ p →
      String.mk (p.map Char.toLower) ∉ xAliases →
      String.mk (p.map Char.toLower) ∉ moltbookAliases →
      (parseRecipient (String.mk (p ++ '/' :: u))).isOk = false) ∧
    (∀ (p u : List Char), String.mk (p.map Char.toLower) ∈ moltbookAliases →
      u ≠ [] → moltbookUsernameOk u = false →
      (parseRecipient (String.mk (p ++ '/' :: u))).isOk = false) := by
  refine ⟨by decide, by decide, by decide, by decide, by decide, by decide, ?_, ?_⟩
  · intro p u hp hx hm
    rw [parseRecipient_split p u hp]
    by_cases hu : u.isEmpty <;> simp [hu, hx, hm, Except.isOk, Except.toBool]
  · intro p u hm hu hbad
    rw [parseRecipient_split p u (moltbookAliases_no_slash hm)]
    simp [List.isEmpty_iff, hu, moltbook_alias_not_x hm, hm, hbad, Except.isOk, Except.toBool]

/-- Witness for C3 at a concrete input: an unknown platform prefix is
rejected. -/
theorem claim_C3_recipient_parsing_witness :
    (parseRecipient (String.mk ("telegram".data ++ '/' :: "bob".data))).isOk = false :=
  claim_C3_recipient_parsing.2.2.2.2.2.2.1 "telegram".data "bob".data
    (by decide) (by decide) (by decide)

/-- C10: the recipient parser splits at the first slash only and applies
no charset or length validation for the x platform: for every alias of x
in any letter case and every nonempty username, including usernames with
further slashes, spaces or punctuation, parsing succeeds with that exact
username; only an empty username after the separator is rejected. -/
theorem claim_C10_x_recipient_no_validation (p u : List Char)
    (hx : String.mk (p.map Char.toLower) ∈ xAliases) :
    (u ≠ [] → parseRecipient (String.mk (p ++ '/' :: u)) = .ok ⟨.x, String.mk u⟩) ∧
    (parseRecipient (String.mk (p ++ '/' :: []))).isOk = false := by
  have hp := xAliases_no_slash hx
  constructor
  · intro hu
    rw [parseRecipient_split p u hp]
    simp [List.isEmpty_iff, hu, hx]
  · rw [parseRecipient_split p [] hp]
    simp [Except.isOk, Except.toBool]

/-- Witness for C10 at a concrete input: an uppercase TWITTER prefix
with a username containing a slash, a space and punctuation parses to
that exact username. -/
theorem claim_C10_x_recipient_no_validation_witness :
    parseRecipient (String.mk ("TWITTER".data ++ '/' :: "a/b c!d".data)) =
      .ok ⟨.x, String.mk "a/b c!d".data⟩ :=
  (claim_C10_x_recipient_no_validation "TWITTER".data "a/b c!d".data
    (by decide)).1 (by decide)

theorem posCheck_ok_iff (w v : ℚ) (m : String) :
    (if w ≤ 0 then Except.error m else Except.ok w) = Except.ok v ↔
      (w = v ∧ 0 < v) := by
  by_cases h : w ≤ 0
  · rw [if_pos h]
    constructor
    · intro hh; exact absurd hh (by simp)
    · rintro ⟨rfl, hv⟩; exact absurd h (not_le.mpr hv)
  · rw [if_neg h]
    constructor
    · intro hh; exact ⟨(Except.ok.injEq _ _).mp hh, by rw [← (Except.ok.injEq _ _).mp hh]; exact not_le.mp h⟩
    · rintro ⟨rfl, _⟩; rfl

theorem sendAmount_ok_iff (s : String) (v : ℚ) :
    sendAmount s = .ok v ↔
      amountNumeric s = some v ∧ dollarBareInt s = false ∧ 0 < v := by
  unfold sendAmount parseAmount amountNumeric dollarBareInt jsParseFloat
  by_cases hc : (jsTrim s.data).getLast? = some '¢'
  · rw [if_pos hc, if_pos hc, if_pos hc]
    cases hf : jsParseFloatSym (jsTrim s.data).dropLast with
    | none => simp [hf]
    | some d => simp [hf, posCheck_ok_iff]
  · rw [if_neg hc, if_neg hc, if_neg hc]
    by_cases hd : (jsTrim s.data).head? = some '$'
    · rw [if_pos hd, if_pos hd, if_pos hd]
      by_cases hb : (!(jsTrim s.data).tail.isEmpty && (jsTrim s.data).tail.all Char.isDigit) = true
      · rw [if_pos hb, hb]
        constructor
        · intro hh; exact absurd hh (by simp)
        · rintro ⟨_, hfalse, _⟩; exact absurd hfalse (by simp)
      · rw [if_neg hb, (Bool.not_eq_true _).mp hb]
        cases hf : jsParseFloatSym (jsTrim s.data).tail with
        | none => simp [hf]
        | some d => simp [hf, posCheck_ok_iff]
    · rw [if_neg hd, if_neg hd, if_neg hd]
      cases hf : jsParseFloatSym (jsTrim s.data) with
      | none => simp [hf]
      | some d => simp [hf, posCheck_ok_iff]

/-- C8: for every input string, the amount handling of the send command
parsing-and-validation fails exactly when the string is non-numeric
under the notation that applies to it, or is a dollar-prefixed bare
integer, or parses to a non-positive value; otherwise it proceeds with
the parsed positive dollar value. -/
theorem claim_C8_amount_validation_total (s : String) :
    (∀ v : ℚ, sendAmount s = .ok v ↔
      (amountNumeric s = some v ∧ dollarBareInt s = false ∧ 0 < v)) ∧
    ((∃ e, sendAmount s = .error e) ↔
      (amountNumeric s = none ∨ dollarBareInt s = true ∨
        ∃ v, amountNumeric s = some v ∧ v ≤ 0)) := by
  refine ⟨sendAmount_ok_iff s, ?_⟩
  cases hsa : sendAmount s with
  | ok v =>
    have h := (sendAmount_ok_iff s v).mp hsa
    constructor
    · rintro ⟨e, he⟩; exact absurd he (by simp)
    · rintro (h1 | h1 | ⟨w, hw, hle⟩)
      · rw [h.1] at h1; exact absurd h1 (by simp)
      · rw [h.2.1] at h1; exact absurd h1 (by simp)
      · rw [h.1] at hw
        rw [Option.some_inj] at hw
        subst hw
        exact absurd h.2.2 (not_lt.mpr hle)
  | error e =>
    constructor
    · intro _
      by_cases hb : dollarBareInt s = true
      · exact Or.inr (Or.inl hb)
      · cases han : amountNumeric s with
        | none => exact Or.inl rfl
        | some w =>
          rcases le_or_lt w 0 with hle | hpos
          · exact Or.inr (Or.inr ⟨w, rfl, hle⟩)
          · exfalso
            have := (sendAmount_ok_iff s w).mpr
              ⟨han, Bool.not_eq_true _ ▸ hb, hpos⟩
            rw [hsa] at this
            exact absurd this (by simp)
    · intro _; exact ⟨e, rfl⟩

/-- Witness for C8 at a concrete input: 50¢ validates to the positive
value one half exactly because it is numeric, not a bare dollar integer,
and positive. -/
theorem claim_C8_amount_validation_total_witness :
    sendAmount "50¢" = .ok (1 / 2) ↔
      (amountNumeric "50¢" = some (1 / 2) ∧ dollarBareInt "50¢" = false ∧
        (0 : ℚ) < 1 / 2) :=
  (claim_C8_amount_validation_total "50¢").1 (1 / 2)

theorem takeWhile_eq_self_of_all {p : Char → Bool} {l : List Char}
    (h : ∀ c ∈ l, p c = true) : l.takeWhile p = l := by
  have h2 := @takeWhile_append_all p l [] h
  simpa using h2

theorem dropWhile_eq_nil_of_all {p : Char → Bool} {l : List Char}
    (h : ∀ c ∈ l, p c = true) : l.dropWhile p = [] := by
  have h2 := @dropWhile_append_all p l [] h
  simpa using h2

theorem jsParseFloatSym_digits_dot (ds fp : List Char) (h1 : ds ≠ [])
    (hd : ∀ c ∈ ds, Char.isDigit c = true)
    (hf : ∀ c ∈ fp, Char.isDigit c = true) :
    jsParseFloatSym (ds ++ '.' :: fp) =
      some ⟨false, digitsVal (ds ++ fp), fp.length, false, 0⟩ := by
  have hws : ∀ c ∈ ds ++ '.' :: fp, jsWs c = false := by
    intro c hc
    rcases List.mem_append.mp hc with h | h
    · exact jsWs_false_of_isDigit (hd c h)
    · rcases List.mem_cons.mp h with rfl | h
      · decide
      · exact jsWs_false_of_isDigit (hf c h)
  obtain ⟨d0, ds', rfl⟩ : ∃ d0 ds', ds = d0 :: ds' := by
    cases ds with
    | nil => exact absurd rfl h1
    | cons a as => exact ⟨a, as, rfl⟩
  have hd0 := hd d0 (by simp)
  have hne := ne_specials_of_isDigit hd0
  have hdot : Char.isDigit '.' = false := rfl
  unfold jsParseFloatSym
  rw [dropWhile_eq_self_of_all hws]
  rw [show parseSign ((d0 :: ds') ++ '.' :: fp) = (false, (d0 :: ds') ++ '.' :: fp) from by
    rw [List.cons_append]
    simp [parseSign, hne.1, hne.2.1]]
  unfold parseDecimal
  rw [takeWhile_append_all hd, dropWhile_append_all hd]
  rw [show ('.' :: fp).takeWhile Char.isDigit = [] from by
    rw [List.takeWhile_cons, hdot]; simp]
  rw [show ('.' :: fp).dropWhile Char.isDigit = '.' :: fp from by
    rw [List.dropWhile_cons, hdot]; simp]
  simp only [List.head?_cons, List.tail_cons, List.append_nil, if_pos]
  rw [takeWhile_eq_self_of_all hf, dropWhile_eq_nil_of_all hf]
  simp [parseExp]

/-- C9: the shell-ambiguity guard applies only to all-digit suffixes
after the dollar sign: for every nonempty digit string, the
dollar-prefixed bare form is rejected with the shell-variable error,
while the same digits followed by .0 or by a trailing point are accepted
and return their integer dollar value. -/
theorem claim_C9_dollar_guard_bare_integers_only (ds : List Char)
    (h1 : ds ≠ []) (h2 : ds.all Char.isDigit = true) :
    parseAmount (String.mk ('$' :: ds)) =
      .error "Dollar amounts like this can be interpreted as shell variables. Please use cents instead." ∧
    parseAmount (String.mk ('$' :: (ds ++ ['.', '0']))) = .ok (digitsVal ds : ℚ) ∧
    parseAmount (String.mk ('$' :: (ds ++ ['.']))) = .ok (digitsVal ds : ℚ) := by
  have hall : ∀ c ∈ ds, Char.isDigit c = true := by
    intro c hc
    exact List.all_eq_true.mp h2 c hc
  obtain ⟨d0, ds', hds⟩ : ∃ d0 ds', ds = d0 :: ds' := by
    cases ds with
    | nil => exact absurd rfl h1
    | cons a as => exact ⟨a, as, rfl⟩
  have hlastds : ∃ l2 b, ds = l2 ++ [b] ∧ Char.isDigit b = true := by
    obtain ⟨l2, b, hb⟩ := (List.eq_nil_or_concat ds).resolve_left h1
    rw [List.concat_eq_append] at hb
    exact ⟨l2, b, hb, hall b (by simp [hb])⟩
  refine ⟨?_, ?_, ?_⟩
  · -- the bare dollar-prefixed digit string hits the shell guard
    unfold parseAmount
    rw [show (String.mk ('$' :: ds)).data = '$' :: ds from rfl]
    rw [jsTrim_eq_self (by
      intro c hc
      rcases List.mem_cons.mp hc with rfl | hc
      · decide
      · exact jsWs_false_of_isDigit (hall c hc))]
    obtain ⟨l2, b, hb, hbd⟩ := hlastds
    have hlast_ne : ¬('$' :: ds).getLast? = some '¢' := by
      rw [hb, ← List.cons_append, List.getLast?_concat]
      intro hcon
      rw [Option.some_inj] at hcon
      rw [hcon] at hbd
      exact absurd hbd (by decide)
    rw [if_neg hlast_ne]
    rw [if_pos (show ('$' :: ds).head? = some '$' from rfl)]
    rw [show ('$' :: ds).tail = ds from rfl]
    rw [if_pos (by
      rw [hds]
      simp only [List.isEmpty_cons, Bool.not_false, Bool.true_and]
      rw [← hds]
      exact h2)]
  · -- digits dot zero parses to the integer value
    rw [parseAmount_dollar_eval (String.mk ('$' :: (ds ++ ['.', '0'])))
      ⟨false, digitsVal (ds ++ ['0']), 1, false, 0⟩
      ?_ ?_ ?_ ?_]
    · rw [show (DecNum.mk false (digitsVal (ds ++ ['0'])) 1 false 0).toRat =
        ((digitsVal (ds ++ ['0'])) : ℚ) / 10 from by
          simp [DecNum.toRat]]
      rw [digitsVal_concat, show digitVal '0' = 0 from rfl, Nat.add_zero]
      push_cast
      exact congrArg Except.ok (mul_div_cancel_left₀ _ (by norm_num : (10 : ℚ) ≠ 0))
    · rw [show (String.mk ('$' :: (ds ++ ['.', '0']))).data = '$' :: (ds ++ ['.', '0']) from rfl]
      rw [jsTrim_eq_self (by
        intro c hc
        rcases List.mem_cons.mp hc with rfl | hc
        · decide
        · rcases List.mem_append.mp hc with hc | hc
          · exact jsWs_false_of_isDigit (hall c hc)
          · rcases List.mem_cons.mp hc with rfl | hc
            · decide
            · rcases List.mem_cons.mp hc with rfl | hc
              · decide
              · exact absurd hc (List.not_mem_nil _))]
      rw [show '$' :: (ds ++ ['.', '0']) = ('$' :: (ds ++ ['.'])) ++ ['0'] from by simp]
      rw [List.getLast?_concat]
      simp
    · rw [show (String.mk ('$' :: (ds ++ ['.', '0']))).data = '$' :: (ds ++ ['.', '0']) from rfl]
      rw [jsTrim_eq_self (by
        intro c hc
        rcases List.mem_cons.mp hc with rfl | hc
        · decide
        · rcases List.mem_append.mp hc with hc | hc
          · exact jsWs_false_of_isDigit (hall c hc)
          · rcases List.mem_cons.mp hc with rfl | hc
            · decide
            · rcases List.mem_cons.mp hc with rfl | hc
              · decide
              · exact absurd hc (List.not_mem_nil _))]
      rfl
    · rw [show (String.mk ('$' :: (ds ++ ['.', '0']))).data = '$' :: (ds ++ ['.', '0']) from rfl]
      rw [jsTrim_eq_self (by
        intro c hc
        rcases List.mem_cons.mp hc with rfl | hc
        · decide
        · rcases List.mem_append.mp hc with hc | hc
          · exact jsWs_false_of_isDigit (hall c hc)
          · rcases List.mem_cons.mp hc with rfl | hc
            · decide
            · rcases List.mem_cons.mp hc with rfl | hc
              · decide
              · exact absurd hc (List.not_mem_nil _))]
      rintro ⟨-, hdig⟩
      rw [show ('$' :: (ds ++ ['.', '0'])).tail = ds ++ ['.', '0'] from rfl] at hdig
      rw [List.all_append] at hdig
      simp at hdig
    · rw [show (String.mk ('$' :: (ds ++ ['.', '0']))).data = '$' :: (ds ++ ['.', '0']) from rfl]
      rw [jsTrim_eq_self (by
        intro c hc
        rcases List.mem_cons.mp hc with rfl | hc
        · decide
        · rcases List.mem_append.mp hc with hc | hc
          · exact jsWs_false_of_isDigit (hall c hc)
          · rcases List.mem_cons.mp hc with rfl | hc
            · decide
            · rcases List.mem_cons.mp hc with rfl | hc
              · decide
              · exact absurd hc (List.not_mem_nil _))]
      rw [show ('$' :: (ds ++ ['.', '0'])).tail = ds ++ ['.', '0'] from rfl]
      rw [show (['.', '0'] : List Char) = '.' :: ['0'] from rfl]
      exact jsParseFloatSym_digits_dot ds ['0'] h1 hall (by decide)
  · -- digits with a trailing point parse to the integer value
    rw [parseAmount_dollar_eval (String.mk ('$' :: (ds ++ ['.'])))
      ⟨false, digitsVal (ds ++ []), 0, false, 0⟩
      ?_ ?_ ?_ ?_]
    · rw [List.append_nil]
      simp [DecNum.toRat]
    · rw [show (String.mk ('$' :: (ds ++ ['.']))).data = '$' :: (ds ++ ['.']) from rfl]
      rw [jsTrim_eq_self (by
        intro c hc
        rcases List.mem_cons.mp hc with rfl | hc
        · decide
        · rcases List.mem_append.mp hc with hc | hc
          · exact jsWs_false_of_isDigit (hall c hc)
          · rcases List.mem_cons.mp hc with rfl | hc
            · decide
            · exact absurd hc (List.not_mem_nil _))]
      rw [show '$' :: (ds ++ ['.']) = ('$' :: ds) ++ ['.'] from by simp]
      rw [List.getLast?_concat]
      simp
    · rw [show (String.mk ('$' :: (ds ++ ['.']))).data = '$' :: (ds ++ ['.']) from rfl]
      rw [jsTrim_eq_self (by
        intro c hc
        rcases List.mem_cons.mp hc with rfl | hc
        · decide
        · rcases List.mem_append.mp hc with hc | hc
          · exact jsWs_false_of_isDigit (hall c hc)
          · rcases List.mem_cons.mp hc with rfl | hc
            · decide
            · exact absurd hc (List.not_mem_nil _))]
      rfl
    · rw [show (String.mk ('$' :: (ds ++ ['.']))).data = '$' :: (ds ++ ['.']) from rfl]
      rw [jsTrim_eq_self (by
        intro c hc
        rcases List.mem_cons.mp hc with rfl | hc
        · decide
        · rcases List.mem_append.mp hc with hc | hc
          · exact jsWs_false_of_isDigit (hall c hc)
          · rcases List.mem_cons.mp hc with rfl | hc
            · decide
            · exact absurd hc (List.not_mem_nil _))]
      rintro ⟨-, hdig⟩
      rw [show ('$' :: (ds ++ ['.'])).tail = ds ++ ['.'] from rfl] at hdig
      rw [List.all_append] at hdig
      simp at hdig
    · rw [show (String.mk ('$' :: (ds ++ ['.']))).data = '$' :: (ds ++ ['.']) from rfl]
      rw [jsTrim_eq_self (by
        intro c hc
        rcases List.mem_cons.mp hc with rfl | hc
        · decide
        · rcases List.mem_append.mp hc with hc | hc
          · exact jsWs_false_of_isDigit (hall c hc)
          · rcases List.mem_cons.mp hc with rfl | hc
            · decide
            · exact absurd hc (List.not_mem_nil _))]
      rw [show ('$' :: (ds ++ ['.'])).tail = ds ++ ['.'] from rfl]
      rw [show (['.'] : List Char) = '.' :: [] from rfl]
      exact jsParseFloatSym_digits_dot ds [] h1 hall (by intro c hc; exact absurd hc (List.not_mem_nil _))

/-- Witness for C9 at a concrete input: digits 17. -/
theorem claim_C9_dollar_guard_bare_integers_only_witness :
    parseAmount (String.mk ('$' :: ['1', '7'])) =
      .error "Dollar amounts like this can be interpreted as shell variables. Please use cents instead." :=
  (claim_C9_dollar_guard_bare_integers_only ['1', '7'] (by decide) (by decide)).1


/-- C4: a JSON-RPC error envelope at either phase aborts the run with
the message of that error and exit status 1; a phase-1 error
leaves exactly one request on the wire, so no phase-2 call is made.
Stated for the send flow and for the gig a2aCall/earnerCall path. -/
theorem claim_C4_rpc_error_aborts :
    (∀ (tok : Option String) (sign : String → String) (r : Recipient)
        (amount : ℚ) (useSolana : Bool) (e : RpcError) (resp1 resp2 : RpcResponse),
      resp1.error = some e →
      sendFlow tok sign r amount useSolana resp1 resp2 =
        ([⟨"molty.send", sendParams r amount useSolana, truthyStr tok, true⟩],
          .failure (jsOr e.message "A2A request failed"))) ∧
    (∀ (tok : Option String) (sign : String → String) (r : Recipient)
        (amount : ℚ) (useSolana : Bool) (e : RpcError) (resp1 resp2 : RpcResponse)
        (pr : String),
      resp1.error = none → truthyStr resp1.result.id = true →
      paymentReq resp1.result = some pr → resp2.error = some e →
      (sendFlow tok sign r amount useSolana resp1 resp2).2 =
        .failure (jsOr e.message "Payment failed")) ∧
    (∀ (resp : RpcResponse) (e : RpcError), resp.error = some e →
      a2aCallResult resp = .error (jsOr e.message "A2A request failed")) ∧
    (∀ (tok : Option String) (sign : String → String) (method : String)
        (ps : List (String × JVal)) (resp1 resp2 : RpcResponse) (e : RpcError),
      resp1.error = some e →
      earnerCall tok sign method ps resp1 resp2 =
        ([a2aCallReq tok true method ps], .error (jsOr e.message "A2A request failed"))) ∧
    (∀ (tok : Option String) (sign : String → String) (method : String)
        (ps : List (String × JVal)) (resp1 resp2 : RpcResponse) (e : RpcError)
        (pr : String),
      resp1.error = none → paymentReq resp1.result = some pr →
      resp2.error = some e →
      (earnerCall tok sign method ps resp1 resp2).2 =
        .error (jsOr e.message "A2A request failed")) := by
  refine ⟨?_, ?_, ?_, ?_, ?_⟩
  · intro tok sign r amount useSolana e resp1 resp2 h
    simp [sendFlow, h]
  · intro tok sign r amount useSolana e resp1 resp2 pr h1 h2 h3 h4
    simp [sendFlow, h1, h2, h3, h4]
  · intro resp e h
    simp [a2aCallResult, h]
  · intro tok sign method ps resp1 resp2 e h
    simp [earnerCall, a2aCallResult, h]
  · intro tok sign method ps resp1 resp2 e pr h1 h2 h3
    simp [earnerCall, a2aCallResult, h1, h2, h3]

/-- Witness for C4 at a concrete input: a phase-1 error envelope with
message boom aborts the send flow after one request. -/
theorem claim_C4_rpc_error_aborts_witness :
    sendFlow none (fun pr => pr) ⟨.x, "bob"⟩ 1 false respErr respDone =
      ([⟨"molty.send", sendParams ⟨.x, "bob"⟩ 1 false, truthyStr none, true⟩],
        .failure (jsOr (RpcError.mk (some "boom")).message "A2A request failed")) :=
  claim_C4_rpc_error_aborts.1 none (fun pr => pr) ⟨.x, "bob"⟩ 1 false
    ⟨some "boom"⟩ respErr respDone rfl

/-- C5 as stated is false on the code: the send flow performs no task
state check, so a phase-2 task in state failed with no decodable
artifact is reported as a success (exit 0), not as an error. -/
theorem claim_C5_counterexample :
    (sendFlow none (fun pr => pr) ⟨.x, "bob"⟩ 1 false respPayReq respFailed).2 =
      .textSuccess "Payment sent" := by decide

/-- C5 amended: a failed or canceled phase-2 task state is turned into
exit 1 by earnerCall (all earner gig subcommands) and by gig create when
no artifact decodes; the send flow performs no such check and reports
the status text as success. -/
theorem claim_C5_task_failure_amended :
    (∀ (tok : Option String) (sign : String → String) (method : String)
        (ps : List (String × JVal)) (resp1 resp2 : RpcResponse) (pr : String),
      resp1.error = none → paymentReq resp1.result = some pr →
      resp2.error = none → taskFailed resp2.result = true →
      (earnerCall tok sign method ps resp1 resp2).2 =
        .error (jsOr (statusText resp2.result) (method ++ " failed"))) ∧
    (∀ t : TaskResult, firstArtifact (t.artifacts.getD []) = none →
      taskFailed t = true →
      createPhase2Handle t = .failure (jsOr (statusText t) "Gig creation failed")) ∧
    (∀ (tok : Option String) (sign : String → String) (r : Recipient)
        (amount : ℚ) (useSolana : Bool) (resp1 resp2 : RpcResponse) (pr : String),
      resp1.error = none → truthyStr resp1.result.id = true →
      paymentReq resp1.result = some pr → resp2.error = none →
      firstArtifact (resp2.result.artifacts.getD []) = none →
      (sendFlow tok sign r amount useSolana resp1 resp2).2 =
        .textSuccess (jsOr (statusText resp2.result) "Payment sent")) := by
  refine ⟨?_, ?_, ?_⟩
  · intro tok sign method ps resp1 resp2 pr h1 h2 h3 h4
    simp [earnerCall, a2aCallResult, h1, h2, h3, h4]
  · intro t h1 h2
    simp [createPhase2Handle, h1, h2]
  · intro tok sign r amount useSolana resp1 resp2 pr h1 h2 h3 h4 h5
    simp [sendFlow, h1, h2, h3, h4, h5]

/-- Witness for the amended C5 at a concrete input: gig.pick with a
failed phase-2 task errors with the joined status text fallback. -/
theorem claim_C5_task_failure_amended_witness :
    (earnerCall (some "tok") (fun pr => pr) "gig.pick" [("gig_id", .str "g1")]
        respPayReq respFailed).2 =
      .error (jsOr (statusText respFailed.result) ("gig.pick" ++ " failed")) :=
  claim_C5_task_failure_amended.1 (some "tok") (fun pr => pr) "gig.pick"
    [("gig_id", .str "g1")] respPayReq respFailed "PR" rfl rfl rfl rfl

theorem sendParams_no_taskId (r : Recipient) (amount : ℚ) (useSolana : Bool) :
    (sendParams r amount useSolana).any (fun q => q.1 = "taskId") = false ∧
    (sendParams r amount useSolana).any (fun q => q.1 = "payment") = false := by
  cases r with
  | mk t u => cases t <;> simp [sendParams]

/-- C6: the phase-2 request resubmits the same action: same method, and
the phase-1 params preserved verbatim with only taskId and the signed
payment appended.  Stated for earnerCall (for params free of those two
keys, as all call sites are) and for the send flow params. -/
theorem claim_C6_phase2_resubmits_same_action :
    (∀ (tok : Option String) (sign : String → String) (method : String)
        (ps : List (String × JVal)) (resp1 resp2 : RpcResponse) (pr : String),
      resp1.error = none → paymentReq resp1.result = some pr →
      ps.any (fun q => q.1 = "taskId") = false →
      ps.any (fun q => q.1 = "payment") = false →
      (earnerCall tok sign method ps resp1 resp2).1 =
        [⟨method, ps, truthyStr tok, true⟩,
          ⟨method, ps ++ [("taskId", jvalOfId resp1.result.id),
            ("payment", .payload (sign pr))], truthyStr tok, true⟩]) ∧
    (∀ (tok : Option String) (sign : String → String) (r : Recipient)
        (amount : ℚ) (useSolana : Bool) (resp1 resp2 : RpcResponse) (pr : String),
      resp1.error = none → truthyStr resp1.result.id = true →
      paymentReq resp1.result = some pr →
      (sendFlow tok sign r amount useSolana resp1 resp2).1 =
        [⟨"molty.send", sendParams r amount useSolana, truthyStr tok, true⟩,
          ⟨"molty.send", sendParams r amount useSolana ++
            [("taskId", jvalOfId resp1.result.id), ("payment", .payload (sign pr))],
            truthyStr tok, true⟩]) := by
  constructor
  · intro tok sign method ps resp1 resp2 pr h1 h2 hk1 hk2
    unfold earnerCall
    simp only [a2aCallResult, h1, h2]
    rw [spreadPhase2_of_not_mem _ _ _ hk1 hk2]
    cases hre : resp2.error with
    | some e => simp [a2aCallReq]
    | none =>
      by_cases htf : taskFailed resp2.result = true
      · simp [htf, a2aCallReq]
      · simp only [Bool.not_eq_true] at htf
        simp only [htf]
        cases firstArtifact (resp2.result.artifacts.getD []) <;> simp [a2aCallReq]
  · intro tok sign r amount useSolana resp1 resp2 pr h1 h2 h3
    unfold sendFlow
    simp only [h1, h2, h3]
    rw [spreadPhase2_of_not_mem _ _ _ (sendParams_no_taskId r amount useSolana).1
      (sendParams_no_taskId r amount useSolana).2]
    cases hre : resp2.error with
    | some e => simp
    | none =>
      cases firstArtifact (resp2.result.artifacts.getD []) <;> simp

/-- Witness for C6 at a concrete input: gig.pick resubmits gig.pick with
the same gig_id param plus taskId and payment. -/
theorem claim_C6_phase2_resubmits_same_action_witness :
    (earnerCall (some "tok") (fun pr => pr) "gig.pick" [("gig_id", .str "g1")]
        respPayReq respDone).1 =
      [⟨"gig.pick", [("gig_id", .str "g1")], truthyStr (some "tok"), true⟩,
        ⟨"gig.pick", [("gig_id", .str "g1")] ++
          [("taskId", jvalOfId respPayReq.result.id), ("payment", .payload "PR")],
          truthyStr (some "tok"), true⟩] :=
  claim_C6_phase2_resubmits_same_action.1 (some "tok") (fun pr => pr) "gig.pick"
    [("gig_id", .str "g1")] respPayReq respDone "PR" rfl rfl (by decide) (by decide)

/-- C7 as stated is false on the code: gig pick, an earner subcommand
other than create, goes through the two-phase earnerCall and puts two
requests on the wire. -/
theorem claim_C7_counterexample :
    ((handlePickTrace (some "tok") (fun pr => pr) "g1" respPayReq respDone).1).length = 2 := by
  decide

/-- C7 amended: the payer subcommands other than create (created, get,
review) perform exactly one JSON-RPC call; the earner subcommands go
through the two-phase payment flow, adding a second payment-bearing call
once phase 1 returns requirements; every request carries the
identity-token header exactly when the token is truthy; and the gig
entry point refuses every subcommand when MOLTY_IDENTITY_TOKEN is unset
or empty. -/
theorem claim_C7_single_call_amended :
    (∀ (tok : Option String) (resp : RpcResponse),
      (handleCreatedTrace tok resp).1.length = 1) ∧
    (∀ (tok : Option String) (gigId : String) (resp : RpcResponse),
      (handleGetTrace tok gigId resp).1.length = 1) ∧
    (∀ (tok : Option String) (g a act : String) (rs : Option String)
        (resp : RpcResponse),
      (handleReviewTrace tok g a act rs resp).1.length = 1) ∧
    (∀ (tok : Option String) (sign : String → String) (gigId : String)
        (resp1 resp2 : RpcResponse) (pr : String),
      resp1.error = none → paymentReq resp1.result = some pr →
      (handlePickTrace tok sign gigId resp1 resp2).1.length = 2) ∧
    (∀ (tok : Option String) (sign : String → String) (method : String)
        (ps : List (String × JVal)) (resp1 resp2 : RpcResponse)
        (req : A2ARequest),
      req ∈ (earnerCall tok sign method ps resp1 resp2).1 →
      req.identityHeader = truthyStr tok) ∧
    (∀ (tok : Option String) (ext : Bool) (method : String)
        (ps : List (String × JVal)),
      (a2aCallReq tok ext method ps).identityHeader = truthyStr tok) ∧
    (∀ (α : Type) (run : α),
      gigMain none run = .refused "Missing MOLTY_IDENTITY_TOKEN environment variable" ∧
      gigMain (some "") run = .refused "Missing MOLTY_IDENTITY_TOKEN environment variable") := by
  refine ⟨?_, ?_, ?_, ?_, ?_, ?_, ?_⟩
  · intro tok resp; rfl
  · intro tok gigId resp; rfl
  · intro tok g a act rs resp; rfl
  · intro tok sign gigId resp1 resp2 pr h1 h2
    unfold handlePickTrace earnerCall
    simp only [a2aCallResult, h1, h2]
    cases hre : resp2.error with
    | some e => simp
    | none =>
      by_cases htf : taskFailed resp2.result = true
      · simp [htf]
      · simp only [Bool.not_eq_true] at htf
        simp only [htf]
        cases firstArtifact (resp2.result.artifacts.getD []) <;> simp
  · intro tok sign method ps resp1 resp2 req hreq
    unfold earnerCall at hreq
    cases h1 : a2aCallResult resp1 with
    | error e =>
      simp [h1] at hreq
      subst hreq; rfl
    | ok t =>
      simp only [h1] at hreq
      cases h2 : paymentReq t with
      | none =>
        simp [h2] at hreq
        subst hreq; rfl
      | some pr =>
        simp only [h2] at hreq
        cases h3 : a2aCallResult resp2 with
        | error e =>
          simp [h3] at hreq
          rcases hreq with rfl | rfl <;> rfl
        | ok t2 =>
          simp only [h3] at hreq
          by_cases htf : taskFailed t2 = true
          · simp [htf] at hreq
            rcases hreq with rfl | rfl <;> rfl
          · simp only [Bool.not_eq_true] at htf
            cases h4 : firstArtifact (t2.artifacts.getD []) <;>
              simp [htf, h4] at hreq <;>
              (rcases hreq with rfl | rfl <;> rfl)
  · intro tok ext method ps; rfl
  · intro α run; exact ⟨rfl, rfl⟩

/-- Witness for the amended C7 at a concrete input: gig get is a single
call. -/
theorem claim_C7_single_call_amended_witness :
    (handleGetTrace (some "tok") "g1" respDone).1.length = 1 :=
  claim_C7_single_call_amended.2.1 (some "tok") "g1" respDone

end MoltyCash
